import Mathlib

/-!
# Verification of the single-screen camera application (src/App.tsx)

Shallow embedding of the screen controller in `src/App.tsx`.  The component
holds four pieces of session state (`cameraType`, `zoom`, `mediaUri`,
`isRecording`), mediates between the camera capability, the filesystem and
the media renderer, and renders conditionally on permission, device
availability and the session state.

External effects (camera invocations, user-visible alerts) are made explicit:
every intent handler returns the new session state together with the list of
underlying camera calls it performed and the list of alert messages it
showed.  Outcomes of asynchronous external calls (whether `takePhoto`
returns a path or throws, whether `mkdir`/`moveFile` succeed, whether
`startRecording`/`stopRecording` throw) are passed as parameters, so one
Lean function covers every possible settlement of the promises awaited by
the corresponding handler.
-/

namespace CameraApp

/-- Lens facing, the `'front' | 'back'` union type of the `cameraType` state. -/
inductive LensFacing where
  | front
  | back
deriving DecidableEq, Repr

/-- Session state owned by the `App` component: the four `useState` cells
`cameraType`, `zoom`, `mediaUri`, `isRecording` (src/App.tsx lines 8-11).
The JavaScript number `zoom` is modelled as a rational. -/
structure SessionState where
  cameraType : LensFacing
  zoom : ℚ
  mediaUri : Option String
  isRecording : Bool
deriving DecidableEq, Repr

/-- Underlying camera-capability invocations performed by a handler. -/
inductive CameraCall where
  | start
  | stop
  | photo
deriving DecidableEq, Repr

/-- Result of running one intent handler: the session state afterwards, the
underlying camera calls made, and the alert messages shown. -/
structure HandlerResult where
  state : SessionState
  calls : List CameraCall
  alerts : List String
deriving DecidableEq, Repr

/-- `toggleCameraType` (src/App.tsx lines 23-25):
`setCameraType(prevType => (prevType === 'back' ? 'front' : 'back'))`. -/
def toggleCameraType (s : SessionState) : SessionState :=
  { s with cameraType := if s.cameraType = .back then .front else .back }

/-- `zoomIn` (src/App.tsx lines 27-29): `setZoom(prevZoom => Math.min(prevZoom + 0.1, 1))`. -/
def zoomIn (s : SessionState) : SessionState :=
  { s with zoom := min (s.zoom + 1/10) 1 }

/-- `zoomOut` (src/App.tsx lines 31-33): `setZoom(prevZoom => Math.max(prevZoom - 0.1, 0))`. -/
def zoomOut (s : SessionState) : SessionState :=
  { s with zoom := max (s.zoom - 1/10) 0 }

/-- A zoom adjustment: which of the two zoom buttons was pressed. -/
inductive ZoomOp where
  | zin
  | zout
deriving DecidableEq, Repr

/-- Apply one zoom adjustment. -/
def applyZoomOp (s : SessionState) (op : ZoomOp) : SessionState :=
  match op with
  | .zin => zoomIn s
  | .zout => zoomOut s

/-- Apply a finite sequence of zoom adjustments in order. -/
def applyZoomOps (s : SessionState) (ops : List ZoomOp) : SessionState :=
  ops.foldl applyZoomOp s

/-- `startRecording` (src/App.tsx lines 35-57).  `camAvailable` is whether
`cameraRef.current` is non-null; `startFails` is whether the awaited
`cameraRef.current.startRecording(options)` throws.  The handler sets the
recording flag optimistically, then awaits the underlying start; the `catch`
block alerts and clears the flag.  The `onRecordingFinished` /
`onRecordingError` callbacks passed in `options` fire later and are embedded
separately below. -/
def startRecording (camAvailable startFails : Bool) (s : SessionState) : HandlerResult :=
  if camAvailable then
    if startFails then
      ⟨{ s with isRecording := false }, [.start], ["Failed to start recording."]⟩
    else
      ⟨{ s with isRecording := true }, [.start], []⟩
  else
    ⟨s, [], []⟩

/-- The `onRecordingFinished` callback (src/App.tsx lines 40-43): receives the
video from the camera and runs `setMediaUri('file://' + video.path);
setIsRecording(false)`. -/
def onRecordingFinished (videoPath : String) (s : SessionState) : SessionState :=
  { s with mediaUri := some ("file://" ++ videoPath), isRecording := false }

/-- The `onRecordingError` callback (src/App.tsx lines 44-48): alerts and runs
`setIsRecording(false)`; `mediaUri` is not touched. -/
def onRecordingError (s : SessionState) : HandlerResult :=
  ⟨{ s with isRecording := false }, [], ["Failed to record video."]⟩

/-- `stopRecording` (src/App.tsx lines 59-68): guarded by
`cameraRef.current && isRecording`; `stopFails` is whether the awaited
`cameraRef.current.stopRecording()` throws (in which case an alert is shown).
The handler itself never mutates the session state: state changes happen in
the recording callbacks. -/
def stopRecording (camAvailable stopFails : Bool) (s : SessionState) : HandlerResult :=
  if camAvailable && s.isRecording then
    if stopFails then
      ⟨s, [.stop], ["Failed to stop recording."]⟩
    else
      ⟨s, [.stop], []⟩
  else
    ⟨s, [], []⟩

/-- `takePhoto` (src/App.tsx lines 70-90).  `camAvailable` is whether
`cameraRef.current` is non-null; `photoResult` is `some path` when the awaited
`takePhoto()` resolves with a photo at `path` and `none` when it throws;
`mkdirOk` / `moveOk` are whether `RNFS.mkdir` / `RNFS.moveFile` resolve.
`docDir` stands for the external constant `RNFS.DocumentDirectoryPath` and
`timestamp` for the value of `new Date().toISOString()`.  Any throw lands in
the single `catch`, which alerts `'Failed to capture photo.'` and leaves the
state untouched; on success `mediaUri` is set to `'file://' + newFilePath`. -/
def takePhoto (camAvailable : Bool) (photoResult : Option String)
    (mkdirOk moveOk : Bool) (docDir timestamp : String)
    (s : SessionState) : HandlerResult :=
  if camAvailable then
    match photoResult with
    | none => ⟨s, [.photo], ["Failed to capture photo."]⟩
    | some _filePath =>
      if mkdirOk then
        let newFilePath := docDir ++ "/capture" ++ "/" ++ timestamp ++ ".jpg"
        if moveOk then
          ⟨{ s with mediaUri := some ("file://" ++ newFilePath) }, [.photo], []⟩
        else
          ⟨s, [.photo], ["Failed to capture photo."]⟩
      else
        ⟨s, [.photo], ["Failed to capture photo."]⟩
  else
    ⟨s, [], []⟩

/-- The Back button handler (src/App.tsx line 164): `setMediaUri(null)`. -/
def clearCapture (s : SessionState) : SessionState :=
  { s with mediaUri := none }

/-- Whether a reversed character list starts with the reverse of `.jpg`,
i.e. whether the unreversed list ends in `.jpg`. -/
def jpgRev : List Char → Bool
  | g :: p :: j :: d :: _ => g == 'g' && p == 'p' && j == 'j' && d == '.'
  | _ => false

/-- Embeds the JavaScript check `mediaUri.endsWith('.jpg')` (src/App.tsx
line 111): whether the last four characters of `s` are `.jpg`. -/
def endsWithJpg (s : String) : Bool :=
  jpgRev s.data.reverse

/-- The rendered view (src/App.tsx lines 92-168), abstracted to which
top-level component tree is mounted:
* `permissionMessage` — the static "Please grant camera permission." text;
* `noCameraMessage` — the static "No camera available." text;
* `photoReview` — the `Image` component showing `uri`, plus the Back button;
* `videoReview` — the `Video` component showing `uri` with
  `controls={true}` (playback transport controls), plus the Back button;
* `livePreview` — the mounted `Camera` component (live preview) with its
  lens, zoom and the record/stop control chosen by the recording flag. -/
inductive View where
  | permissionMessage
  | noCameraMessage
  | photoReview (uri : String)
  | videoReview (uri : String)
  | livePreview (lens : LensFacing) (zoom : ℚ) (recording : Bool)
deriving DecidableEq, Repr

/-- The render function of `App` (src/App.tsx lines 92-168): permission gate
first, then device gate, then review-vs-live-preview on `mediaUri`, with the
photo/video choice made by `mediaUri.endsWith('.jpg')`. -/
def render (hasPermission deviceAvailable : Bool) (s : SessionState) : View :=
  if !hasPermission then
    .permissionMessage
  else if !deviceAvailable then
    .noCameraMessage
  else
    match s.mediaUri with
    | some uri => if endsWithJpg uri then .photoReview uri else .videoReview uri
    | none => .livePreview s.cameraType s.zoom s.isRecording

/-- Whether the live `Camera` preview component is mounted in a view. -/
def cameraMounted (v : View) : Bool :=
  match v with
  | .livePreview _ _ _ => true
  | _ => false

/-- The record/stop control of the live preview (src/App.tsx lines 147-155):
when `isRecording` is true the rendered button's `onPress` is `stopRecording`,
otherwise it is `startRecording`.  `startOutcome`/`stopOutcome` are the
failure flags threaded to whichever handler runs. -/
def recordControlPress (camAvailable startFails stopFails : Bool)
    (s : SessionState) : HandlerResult :=
  if s.isRecording then
    stopRecording camAvailable stopFails s
  else
    startRecording camAvailable startFails s

/-- A convenient concrete initial state: `'back'` lens, zoom `0`, no captured
media, not recording (the `useState` initial values, src/App.tsx lines 8-11). -/
def initState : SessionState :=
  ⟨.back, 0, none, false⟩

/-! ## General lemmas about the `.jpg` suffix check -/

/-- Prepending the `file://` scheme does not change whether a string ends in
`.jpg` (no character of `file://` is a dot, so the suffix cannot straddle the
boundary). -/
theorem endsWithJpg_fileUri (p : String) :
    endsWithJpg ("file://" ++ p) = endsWithJpg p := by
  unfold endsWithJpg
  have h : ("file://" ++ p).data = "file://".data ++ p.data := by cases p; rfl
  rw [h, List.reverse_append]
  have h2 : "file://".data.reverse = ['/', '/', ':', 'e', 'l', 'i', 'f'] := by rfl
  rw [h2]
  rcases hr : p.data.reverse with _ | ⟨a, _ | ⟨b, _ | ⟨c, _ | ⟨d, t⟩⟩⟩⟩ <;> simp [jpgRev]

/-- A string obtained by appending the literal `.jpg` passes the suffix
check. -/
theorem endsWithJpg_append_jpg (x : String) : endsWithJpg (x ++ ".jpg") = true := by
  unfold endsWithJpg
  have h : (x ++ ".jpg").data = x.data ++ ".jpg".data := by cases x; rfl
  rw [h, List.reverse_append]
  rfl

/-! ## Claims -/

/-- Claim C1, counterexample.  The `startRecording` handler itself has no
guard on `isRecording`: called in a state whose recording flag is already
`true` (camera available, underlying start succeeding), it still invokes the
underlying `cameraRef.current.startRecording`, so the claim that it "never
invokes the underlying camera startRecording call a second time" is false of
the handler. -/
theorem startRecording_double_invoke_cex :
    (SessionState.mk LensFacing.back 0 none true).isRecording = true ∧
    (startRecording true false (SessionState.mk LensFacing.back 0 none true)).calls
      = [CameraCall.start] := by
  exact ⟨rfl, rfl⟩

/-- Claim C1 (amended): the guard lives in the rendered control, not in the
handler.  While `isRecording` is true the record control's `onPress` is
`stopRecording` (src/App.tsx lines 147-155), so pressing the record control
while recording never invokes the underlying camera `startRecording` and
leaves the session state unchanged. -/
theorem record_control_no_double_start (camAvailable startFails stopFails : Bool)
    (s : SessionState) (h : s.isRecording = true) :
    CameraCall.start ∉ (recordControlPress camAvailable startFails stopFails s).calls ∧
    (recordControlPress camAvailable startFails stopFails s).state = s := by
  cases camAvailable <;> cases stopFails <;>
    simp [recordControlPress, stopRecording, h]

/-- Claim C1, witness for the amended theorem at a concrete recording
state. -/
theorem record_control_no_double_start_witness :
    CameraCall.start ∉
      (recordControlPress true false false (SessionState.mk LensFacing.back 0 none true)).calls ∧
    (recordControlPress true false false (SessionState.mk LensFacing.back 0 none true)).state
      = SessionState.mk LensFacing.back 0 none true :=
  record_control_no_double_start true false false (SessionState.mk LensFacing.back 0 none true) rfl

/-- Claim C2 (confirmed): if any step of the photo capture fails — the
`takePhoto` call throws, `mkdir` fails, or `moveFile` fails — the single
`catch` block runs: the session state (in particular `mediaUri` and
`isRecording`) is exactly as before, and the error alert is shown. -/
theorem takePhoto_failure_state_unchanged (photoResult : Option String)
    (mkdirOk moveOk : Bool) (docDir timestamp : String) (s : SessionState)
    (hfail : photoResult = none ∨ mkdirOk = false ∨ moveOk = false) :
    (takePhoto true photoResult mkdirOk moveOk docDir timestamp s).state = s ∧
    (takePhoto true photoResult mkdirOk moveOk docDir timestamp s).alerts
      = ["Failed to capture photo."] := by
  rcases hfail with h | h | h
  · subst h; simp [takePhoto]
  · subst h; cases photoResult <;> simp [takePhoto]
  · subst h; cases photoResult <;> cases mkdirOk <;> simp [takePhoto]

/-- Claim C2, witness: the move step fails on a concrete state whose
`mediaUri` is `none`, and the state is unchanged with the alert shown. -/
theorem takePhoto_failure_state_unchanged_witness :
    ((some "/tmp/photo.tmp" : Option String) = none ∨ true = false ∨ false = false) ∧
    ((takePhoto true (some "/tmp/photo.tmp") true false "/docs" "2024-01-01T00:00:00.000Z"
        initState).state = initState ∧
      (takePhoto true (some "/tmp/photo.tmp") true false "/docs" "2024-01-01T00:00:00.000Z"
        initState).alerts = ["Failed to capture photo."]) :=
  ⟨Or.inr (Or.inr rfl),
    takePhoto_failure_state_unchanged (some "/tmp/photo.tmp") true false "/docs"
      "2024-01-01T00:00:00.000Z" initState (Or.inr (Or.inr rfl))⟩

/-- Claim C3 (confirmed): starting from any zoom value in `[0, 1]`, any
finite sequence of `zoomIn` / `zoomOut` presses leaves the zoom in `[0, 1]`
(the `Math.min`/`Math.max` clamps preserve the interval). -/
theorem zoom_stays_bounded (ops : List ZoomOp) (s : SessionState)
    (h0 : 0 ≤ s.zoom) (h1 : s.zoom ≤ 1) :
    0 ≤ (applyZoomOps s ops).zoom ∧ (applyZoomOps s ops).zoom ≤ 1 := by
  induction ops generalizing s with
  | nil => exact ⟨h0, h1⟩
  | cons op rest ih =>
    have hstep : 0 ≤ (applyZoomOp s op).zoom ∧ (applyZoomOp s op).zoom ≤ 1 := by
      cases op with
      | zin =>
        exact ⟨le_min (by linarith) (by norm_num), min_le_right (s.zoom + 1/10) (1 : ℚ)⟩
      | zout =>
        exact ⟨le_max_right (s.zoom - 1/10) (0 : ℚ), max_le (by linarith) (by norm_num)⟩
    have : applyZoomOps s (op :: rest) = applyZoomOps (applyZoomOp s op) rest := rfl
    rw [this]
    exact ih (applyZoomOp s op) hstep.1 hstep.2

/-- Claim C3, witness: a concrete sequence of three presses from the initial
zoom of `0` stays in bounds. -/
theorem zoom_stays_bounded_witness :
    (0 ≤ initState.zoom ∧ initState.zoom ≤ 1) ∧
    (0 ≤ (applyZoomOps initState [ZoomOp.zin, ZoomOp.zout, ZoomOp.zout]).zoom ∧
      (applyZoomOps initState [ZoomOp.zin, ZoomOp.zout, ZoomOp.zout]).zoom ≤ 1) :=
  ⟨⟨by norm_num [initState], by norm_num [initState]⟩,
    zoom_stays_bounded [ZoomOp.zin, ZoomOp.zout, ZoomOp.zout] initState
      (by norm_num [initState]) (by norm_num [initState])⟩

/-- Claim C4, counterexample.  A fully successful photo capture run from a
state whose recording flag is `true` (reachable: the Capture Photo button is
rendered whenever `mediaUri` is null, even while recording) sets `mediaUri`
and shows no alert, yet leaves `isRecording = true` — contradicting the
claim that after a successful `capturePhoto` the recording flag is false
(`takePhoto` never touches the flag). -/
theorem takePhoto_success_recording_cex :
    (takePhoto true (some "/tmp/photo.tmp") true true "/docs" "2024-01-01T00:00:00.000Z"
      (SessionState.mk LensFacing.back 0 none true)).alerts = [] ∧
    (takePhoto true (some "/tmp/photo.tmp") true true "/docs" "2024-01-01T00:00:00.000Z"
      (SessionState.mk LensFacing.back 0 none true)).state.mediaUri
      = some "file:///docs/capture/2024-01-01T00:00:00.000Z.jpg" ∧
    (takePhoto true (some "/tmp/photo.tmp") true true "/docs" "2024-01-01T00:00:00.000Z"
      (SessionState.mk LensFacing.back 0 none true)).state.isRecording = true := by
  exact ⟨rfl, rfl, rfl⟩

/-- Claim C4 (amended): if `capturePhoto` succeeds (camera available, photo
taken, directory created, file moved), then `mediaUri` is the non-null URI
`file://<document directory>/capture/<timestamp>.jpg`, which passes the
`.jpg` suffix check, no alert is shown, and the recording flag is unchanged
by the capture — hence false whenever it was false beforehand (the claim's
unconditional "the recording flag is false" fails when a capture succeeds
while recording). -/
theorem takePhoto_success (filePath docDir timestamp : String) (s : SessionState) :
    (takePhoto true (some filePath) true true docDir timestamp s).state.mediaUri
      = some ("file://" ++ (docDir ++ "/capture" ++ "/" ++ timestamp ++ ".jpg")) ∧
    endsWithJpg ("file://" ++ (docDir ++ "/capture" ++ "/" ++ timestamp ++ ".jpg")) = true ∧
    (takePhoto true (some filePath) true true docDir timestamp s).state.isRecording
      = s.isRecording ∧
    (takePhoto true (some filePath) true true docDir timestamp s).alerts = [] := by
  refine ⟨rfl, ?_, rfl, rfl⟩
  have h : ("file://" ++ (docDir ++ "/capture" ++ "/" ++ timestamp ++ ".jpg"))
      = ("file://" ++ (docDir ++ "/capture" ++ "/" ++ timestamp)) ++ ".jpg" := by
    cases docDir; cases timestamp; rfl
  rw [h]
  exact endsWithJpg_append_jpg _

/-- Claim C5 (confirmed): a successful recording run — `startRecording`
(flag set), `stopRecording` while recording, then the camera's
`onRecordingFinished` callback delivering a video path that is not a `.jpg`
file — ends with `mediaUri` set to the non-null `file://` URI of the video,
which fails the `.jpg` suffix check, the recording flag false, and the
review view rendering the `Video` player with playback controls rather than
the still `Image`. -/
theorem record_stop_review (s : SessionState) (videoPath : String)
    (h : endsWithJpg videoPath = false) :
    (onRecordingFinished videoPath
        ((stopRecording true false ((startRecording true false s).state)).state)).mediaUri
      = some ("file://" ++ videoPath) ∧
    endsWithJpg ("file://" ++ videoPath) = false ∧
    (onRecordingFinished videoPath
        ((stopRecording true false ((startRecording true false s).state)).state)).isRecording
      = false ∧
    render true true
        (onRecordingFinished videoPath
          ((stopRecording true false ((startRecording true false s).state)).state))
      = View.videoReview ("file://" ++ videoPath) := by
  have huri : endsWithJpg ("file://" ++ videoPath) = false := by
    rw [endsWithJpg_fileUri]; exact h
  refine ⟨rfl, huri, rfl, ?_⟩
  simp [render, startRecording, stopRecording, onRecordingFinished, huri]

/-- Claim C5, witness at a concrete video path. -/
theorem record_stop_review_witness :
    endsWithJpg "/data/video.mov" = false ∧
    ((onRecordingFinished "/data/video.mov"
        ((stopRecording true false ((startRecording true false initState).state)).state)).mediaUri
      = some ("file://" ++ "/data/video.mov") ∧
    endsWithJpg ("file://" ++ "/data/video.mov") = false ∧
    (onRecordingFinished "/data/video.mov"
        ((stopRecording true false ((startRecording true false initState).state)).state)).isRecording
      = false ∧
    render true true
        (onRecordingFinished "/data/video.mov"
          ((stopRecording true false ((startRecording true false initState).state)).state))
      = View.videoReview ("file://" ++ "/data/video.mov")) :=
  ⟨rfl, record_stop_review initState "/data/video.mov" rfl⟩

/-- Claim C6 (confirmed): on either recording-failure path — the awaited
`startRecording` throwing (the `catch` block) or the asynchronous
`onRecordingError` callback firing — the recording flag is cleared to
`false`, an error alert is shown, and `mediaUri` keeps its previous value. -/
theorem recording_failure_clears_flag (s : SessionState) :
    (startRecording true true s).state.isRecording = false ∧
    (startRecording true true s).state.mediaUri = s.mediaUri ∧
    (startRecording true true s).alerts = ["Failed to start recording."] ∧
    (onRecordingError s).state.isRecording = false ∧
    (onRecordingError s).state.mediaUri = s.mediaUri ∧
    (onRecordingError s).alerts = ["Failed to record video."] :=
  ⟨rfl, rfl, rfl, rfl, rfl, rfl⟩

/-- Claim C7 (confirmed): toggling the lens facing twice returns the whole
session state, and in particular the lens facing, to its original value. -/
theorem toggle_twice_id (s : SessionState) :
    toggleCameraType (toggleCameraType s) = s := by
  rcases s with ⟨lens, z, m, r⟩
  cases lens <;> rfl

/-- Claim C8 (confirmed): whenever `hasPermission` is false the rendered
view is the static permission-required message, and no live `Camera` preview
component is mounted, regardless of device availability and session
state. -/
theorem no_permission_renders_message (deviceAvailable : Bool) (s : SessionState) :
    render false deviceAvailable s = View.permissionMessage ∧
    cameraMounted (render false deviceAvailable s) = false :=
  ⟨rfl, rfl⟩

/-- Claim C9 (confirmed): the Back action sets `mediaUri` to `null` for
every prior captured-media value (photo or video path alike), and the
resulting state renders the live camera preview. -/
theorem clearCapture_returns_to_preview (s : SessionState) :
    (clearCapture s).mediaUri = none ∧
    render true true (clearCapture s)
      = View.livePreview s.cameraType s.zoom s.isRecording :=
  ⟨rfl, rfl⟩

/-- Claim C10 (confirmed): calling `stopRecording` while the recording flag
is false fails the `cameraRef.current && isRecording` guard, so the entire
session state is unchanged, no underlying camera call is made, and no alert
is shown. -/
theorem stop_when_not_recording_noop (camAvailable stopFails : Bool)
    (s : SessionState) (h : s.isRecording = false) :
    stopRecording camAvailable stopFails s = ⟨s, [], []⟩ := by
  simp [stopRecording, h]

/-- Claim C10, witness at the initial (non-recording) state. -/
theorem stop_when_not_recording_noop_witness :
    initState.isRecording = false ∧
    stopRecording true false initState = ⟨initState, [], []⟩ :=
  ⟨rfl, stop_when_not_recording_noop true false initState rfl⟩

end CameraApp
